import Mathlib

/-!
Verification of the client-side state/control logic of the currency
converter front end (src/src/App.jsx): the currency-catalog fetch with its
cancellation flag, the convert request lifecycle, the swap operation, and
the bounded persisted history log kept through the useLocalStorage hook.

The single-threaded, event-driven JavaScript program is shallowly embedded:
React state is a record (AppState), each event handler and each async
continuation is a pure state transformer, and observable side effects
(issuing a network request, alert, console.error) are returned explicitly.
JavaScript numbers are modelled by JSNum: NaN, the two infinities, and
finite values as exact rationals (IEEE-754 rounding and overflow of
out-of-range decimal literals to Infinity are not modelled; the
NaN / Infinity / finite classification relevant to the input guard is
faithful for the inputs considered in the theorems below).
-/

/-- Model of a JavaScript number as used by the amount guard: NaN, the two
infinities, or a finite value represented as an exact rational. -/
inductive JSNum where
  | nan : JSNum
  | inf : JSNum
  | negInf : JSNum
  | finite : ℚ → JSNum
  deriving DecidableEq, Repr

/-- The JavaScript global isNaN predicate on an already-converted number
(App.jsx line 62 applies it to Number(amount)). -/
def JSNum.isNaN : JSNum → Bool
  | .nan => true
  | _ => false

/-- The JavaScript Number.isFinite classification of a number value. -/
def JSNum.isFinite : JSNum → Bool
  | .finite _ => true
  | _ => false

/-- Whether a character is ECMAScript StrWhiteSpace (ASCII subset). -/
def isJsWhitespaceChar (c : Char) : Bool :=
  c == ' ' || c == '\t' || c == '\n' || c == '\r' || c == '\x0b' || c == '\x0c'

/-- Strip leading and trailing whitespace from a character list. -/
def trimChars (cs : List Char) : List Char :=
  ((cs.dropWhile isJsWhitespaceChar).reverse.dropWhile isJsWhitespaceChar).reverse

/-- Numeric value of a decimal digit character. -/
def digitVal (c : Char) : Nat := c.toNat - '0'.toNat

/-- Value of a list of decimal digit characters read in base 10. -/
def digitsVal (cs : List Char) : Nat :=
  cs.foldl (fun n c => 10 * n + digitVal c) 0

/-- Whether a character is a hexadecimal digit. -/
def isHexDigitChar (c : Char) : Bool :=
  if c.isDigit then true
  else if 'a' ≤ c ∧ c ≤ 'f' then true
  else if 'A' ≤ c ∧ c ≤ 'F' then true
  else false

/-- Numeric value of a hexadecimal digit character. -/
def hexDigitVal (c : Char) : Nat :=
  if c.isDigit then c.toNat - '0'.toNat
  else if 'a' ≤ c ∧ c ≤ 'f' then c.toNat - 'a'.toNat + 10
  else c.toNat - 'A'.toNat + 10

/-- Whether a character is an octal digit. -/
def isOctalDigitChar (c : Char) : Bool :=
  decide ('0' ≤ c ∧ c ≤ '7')

/-- Whether a character is a binary digit. -/
def isBinaryDigitChar (c : Char) : Bool :=
  c == '0' || c == '1'

/-- Value of a nonempty all-digit character list in the given radix;
none when the list is empty or contains a non-digit. -/
def radixNat (radix : Nat) (isDigitC : Char → Bool) (valC : Char → Nat)
    (cs : List Char) : Option Nat :=
  if cs.isEmpty then none
  else if cs.all isDigitC then
    some (cs.foldl (fun n c => radix * n + valC c) 0)
  else none

/-- Split a character list at the first character satisfying p: the prefix
before it, and (when a separator occurs) the remainder after it. -/
def splitOnFirst (p : Char → Bool) (cs : List Char) : List Char × Option (List Char) :=
  match cs.span (fun c => !(p c)) with
  | (pre, []) => (pre, none)
  | (pre, _ :: post) => (pre, some post)

/-- Value of an unsigned ECMAScript StrDecimalLiteral
(digits, optional fraction, optional exponent), as an exact rational;
none when the character list is not such a literal. -/
def strDecimalValue (cs : List Char) : Option ℚ :=
  let (mant, expPart) := splitOnFirst (fun c => c == 'e' || c == 'E') cs
  let (ip, fpOpt) := splitOnFirst (fun c => c == '.') mant
  let fp := fpOpt.getD []
  if ip.isEmpty && fp.isEmpty then none
  else if ip.all Char.isDigit && fp.all Char.isDigit then
    let m : Nat := digitsVal (ip ++ fp)
    match expPart with
    | none => some (mkRat m (10 ^ fp.length))
    | some es =>
      let (eneg, eds) :=
        match es with
        | '+' :: rest => (false, rest)
        | '-' :: rest => (true, rest)
        | _ => (false, es)
      if eds.isEmpty then none
      else if eds.all Char.isDigit then
        some (if eneg then mkRat m (10 ^ (fp.length + digitsVal eds))
              else mkRat (m * 10 ^ digitsVal eds) (10 ^ fp.length))
      else none
  else none

/-- Value of an optionally signed decimal literal or Infinity literal,
per ECMAScript StrNumericLiteral (the non-prefixed branch). -/
def jsSignedValue (cs : List Char) : JSNum :=
  let (neg, body) :=
    match cs with
    | '+' :: rest => (false, rest)
    | '-' :: rest => (true, rest)
    | _ => (false, cs)
  if body = "Infinity".toList then (if neg then JSNum.negInf else JSNum.inf)
  else
    match strDecimalValue body with
    | some q => JSNum.finite (if neg then -q else q)
    | none => JSNum.nan

/-- Model of the ECMAScript ToNumber conversion on strings, the Number
builtin applied to the amount text at App.jsx lines 62, 66 and 70: trim
whitespace, empty gives 0, then a hex / octal / binary prefixed literal or
an optionally signed decimal or Infinity literal; anything else is NaN.
Finite values are exact rationals (double rounding and overflow of huge
literals to Infinity are not modelled). -/
def jsStringToNumber (s : String) : JSNum :=
  let cs := trimChars s.toList
  if cs.isEmpty then JSNum.finite 0
  else
    match cs with
    | '0' :: c :: rest =>
      if c = 'x' ∨ c = 'X' then
        match radixNat 16 isHexDigitChar hexDigitVal rest with
        | some n => JSNum.finite n
        | none => JSNum.nan
      else if c = 'o' ∨ c = 'O' then
        match radixNat 8 isOctalDigitChar digitVal rest with
        | some n => JSNum.finite n
        | none => JSNum.nan
      else if c = 'b' ∨ c = 'B' then
        match radixNat 2 isBinaryDigitChar digitVal rest with
        | some n => JSNum.finite n
        | none => JSNum.nan
      else jsSignedValue cs
    | _ => jsSignedValue cs

/-- A JavaScript value as held by the result and rate state variables and
by the corresponding history entry fields: null (the cleared state,
App.jsx lines 27-28, 57 and 63), undefined (what destructuring or a
property read yields for a missing property), or a number. The program
distinguishes null from undefined: the render guard at line 125 checks
result and rate against null only, so an undefined value counts as set. -/
inductive JsNumVal where
  | null : JsNumVal
  | undef : JsNumVal
  | num : ℚ → JsNumVal
  deriving DecidableEq, Repr

/-- The value a property read on a non-nullish object yields: the
property's value when present, undefined when absent. -/
def JsNumVal.ofProp : Option ℚ → JsNumVal
  | some q => JsNumVal.num q
  | none => JsNumVal.undef

/-- A history log record as constructed at App.jsx line 70. The JavaScript
keys from, to and at are Lean keywords and are embedded as from_, to_ and
at_. The amount field holds Number(amount); id is the fresh unique
identifier produced by crypto.randomUUID, taken here as a parameter. The
result and rate fields hold the destructured response properties (numbers
for a well-formed payload, undefined otherwise); at_ holds the
destructured fetchedAt, none modelling undefined when the property is
absent. -/
structure HistoryEntry where
  id : String
  from_ : String
  to_ : String
  amount : JSNum
  result : JsNumVal
  rate : JsNumVal
  at_ : Option String
  deriving DecidableEq, Repr

/-- The three expected fields of a well-formed payload of
GET /api/convert (App.jsx line 68). The fetchedAt timestamp is kept
opaque as a string. -/
structure ConvertResponse where
  result : ℚ
  rate : ℚ
  fetchedAt : String
  deriving DecidableEq, Repr

/-- The React state of the App component (App.jsx lines 23-32): the currency
catalog (an association list of code and display name), the two selected
codes, the amount text, the displayed result and rate (JsNumVal.null models
null, their initial and cleared state), the two loading flags, and the
history log. -/
structure AppState where
  currencies : List (String × String)
  from_ : String
  to_ : String
  amount : String
  result : JsNumVal
  rate : JsNumVal
  loading : Bool
  loadingCurrencies : Bool
  history : List HistoryEntry
  deriving DecidableEq, Repr

/-- Observable side effects of one run of the onConvert handler: whether a
network request was issued, whether the failure alert was shown, and
whether console.error was called. -/
structure ConvertEffects where
  requested : Bool
  alerted : Bool
  loggedError : Bool
  deriving DecidableEq, Repr

/-- Effects of a run of onConvert that returns before issuing a request. -/
def noEffects : ConvertEffects :=
  { requested := false, alerted := false, loggedError := false }

/-- resp.data of a resolved (2xx) convert response. Axios resolves every
2xx regardless of the body's shape: the body may be nullish (null or
undefined), for which the destructuring at App.jsx line 68 throws a
TypeError that lands in the catch branch, or any other value (object or
primitive), from which the destructuring reads the result, rate and
fetchedAt properties without throwing, each read yielding the property's
value when present and undefined when absent. -/
inductive ConvertPayload where
  | nullish : ConvertPayload
  | obj : Option ℚ → Option ℚ → Option String → ConvertPayload
  deriving DecidableEq, Repr

/-- How the awaited convert fetch settles: axios rejects (the await
throws) on network errors and on non-2xx statuses, caught at App.jsx
line 72; every 2xx response resolves, carrying its resp.data payload
whatever its shape. -/
inductive FetchOutcome where
  | resolved : ConvertPayload → FetchOutcome
  | thrown : FetchOutcome
  deriving DecidableEq, Repr

/-- A well-formed success: a 2xx response whose payload carries all three
expected fields of ConvertResponse. -/
def FetchOutcome.success (resp : ConvertResponse) : FetchOutcome :=
  FetchOutcome.resolved
    (ConvertPayload.obj (some resp.result) (some resp.rate) (some resp.fetchedAt))

/-- A thrown failure: a network error or a non-2xx response. -/
def FetchOutcome.failure : FetchOutcome := FetchOutcome.thrown

/-- How the catalog fetch settles (App.jsx lines 44-47): a response whose
data field (resp.data.data) may be absent, modelled as an optional
association list, or a thrown failure. -/
inductive CatalogOutcome where
  | success : Option (List (String × String)) → CatalogOutcome
  | failure : CatalogOutcome
  deriving DecidableEq, Repr

/-- The lazy initializer of useLocalStorage (App.jsx lines 8-15),
specialized over the composite of window.localStorage.getItem and
JSON.parse: slot is none when getItem returned null or the empty string
(both falsy), some none when JSON.parse threw (the catch branch), and
some (some v) when parsing succeeded with v. The value is returned as
parsed, with no truncation or validation. -/
def useLocalStorageInit {α : Type} (slot : Option (Option α)) (initialValue : α) : α :=
  match slot with
  | some (some v) => v
  | _ => initialValue

/-- The persistence effect of useLocalStorage (App.jsx line 17): setItem
wrapped in try/catch with an empty catch. writeSucceeds tells whether the
underlying write threw; on failure the stored slot is left as it was and
no error escapes (the function is total). -/
def useLocalStorageWrite {α : Type} (writeSucceeds : Bool) (stored : Option α)
    (value : α) : Option α :=
  if writeSucceeds then some value else stored

/-- The history update expression of App.jsx line 71,
setHistory([record, ...history].slice(0, 50)): prepend then keep the
first 50 entries. -/
def appendEntry (history : List HistoryEntry) (record : HistoryEntry) : List HistoryEntry :=
  (record :: history).take 50

/-- The Clear button handler (App.jsx line 141), setHistory([]). -/
def clearHistory : List HistoryEntry := []

/-- Iterated appendEntry: the history log after a sequence of appends,
earliest first. -/
def appendAll (history : List HistoryEntry) (records : List HistoryEntry) : List HistoryEntry :=
  records.foldl appendEntry history

/-- The record constructed at App.jsx line 70 from the state captured by
the submitting render and a well-formed response, given the fresh id
paired with the response. -/
def recordOf (s : AppState) (p : String × ConvertResponse) : HistoryEntry :=
  { id := p.1, from_ := s.from_, to_ := s.to_,
    amount := jsStringToNumber s.amount,
    result := JsNumVal.num p.2.result, rate := JsNumVal.num p.2.rate,
    at_ := some p.2.fetchedAt }

/-- The swap handler (App.jsx lines 56-58): exchange from and to and clear
the displayed result and rate to null. -/
def onSwap (s : AppState) : AppState :=
  { s with from_ := s.to_, to_ := s.from_,
           result := JsNumVal.null, rate := JsNumVal.null }

/-- The submit handler onConvert (App.jsx lines 60-78) run to completion
with the given fetch outcome. The guard at line 62 returns early when the
amount text is empty (the only falsy string) or Number(amount) is NaN.
Otherwise loading is set and result and rate are cleared to null
(line 63) and the request is issued. When the fetch throws (network error
or non-2xx status), or when it resolves with a nullish payload so that
the destructuring at line 68 throws a TypeError, the catch branch logs
the error and shows the alert (lines 73-74). When the fetch resolves with
any non-nullish payload the destructuring succeeds and the code takes the
success path unconditionally: result and rate are set to the destructured
properties, undefined when absent (line 69), and a record holding those
same values is prepended to the log capped at 50 (lines 70-71). The
finally clause (line 76) clears loading on every path. -/
def onConvert (s : AppState) (freshId : String) (outcome : FetchOutcome) :
    AppState × ConvertEffects :=
  if s.amount == "" || (jsStringToNumber s.amount).isNaN then (s, noEffects)
  else
    let s1 : AppState :=
      { s with loading := true, result := JsNumVal.null, rate := JsNumVal.null }
    match outcome with
    | .resolved .nullish =>
      ({ s1 with loading := false },
       { requested := true, alerted := true, loggedError := true })
    | .resolved (.obj r ra t) =>
      let record : HistoryEntry :=
        { id := freshId, from_ := s.from_, to_ := s.to_,
          amount := jsStringToNumber s.amount,
          result := JsNumVal.ofProp r, rate := JsNumVal.ofProp ra, at_ := t }
      ({ s1 with
          result := JsNumVal.ofProp r, rate := JsNumVal.ofProp ra,
          history := appendEntry s.history record,
          loading := false },
       { requested := true, alerted := false, loggedError := false })
    | .thrown =>
      ({ s1 with loading := false },
       { requested := true, alerted := true, loggedError := true })

/-- The continuation of the catalog fetch after it settles (App.jsx lines
44-50), parameterized by the cancellation flag set by the effect cleanup
(line 53). On success the catalog is replaced by resp.data.data or the
empty mapping when that field is absent (line 45); on failure
console.error runs unconditionally (line 47, returned as the Boolean
effect). The finally clause clears loadingCurrencies (line 49). Both state
writes are guarded by the cancellation flag. -/
def fetchCurrenciesSettle (cancelled : Bool) (outcome : CatalogOutcome)
    (s : AppState) : AppState × Bool :=
  match outcome with
  | .success d =>
    let s1 := if cancelled then s else { s with currencies := d.getD [] }
    ((if cancelled then s1 else { s1 with loadingCurrencies := false }), false)
  | .failure =>
    ((if cancelled then s else { s with loadingCurrencies := false }), true)

/-- The success continuation of onConvert (App.jsx lines 68-71 and 75-77)
applied to the current state s, with the from, to, amount and history
values captured by the closure of the render in which the submission was
made. React state updates from plain values use these captured values, so
a continuation running after another update overwrites it from its own
captured history. -/
def convertSuccessContinuation (captured : AppState) (freshId : String)
    (resp : ConvertResponse) (s : AppState) : AppState :=
  { s with
      result := JsNumVal.num resp.result, rate := JsNumVal.num resp.rate,
      history := appendEntry captured.history (recordOf captured (freshId, resp)),
      loading := false }

/-- Two overlapping convert submissions, both made from the render holding
state s0 (a double submit before any response arrives): each runs the
guard and the synchronous prefix of onConvert (lines 61-63), then the
later-issued request (freshId2, resp2) completes first and the
earlier-issued one (freshId1, resp1) completes second, their continuations
running in completion order. -/
def overlappingConvertsFinal (s0 : AppState) (freshId1 freshId2 : String)
    (resp1 resp2 : ConvertResponse) : AppState :=
  if s0.amount == "" || (jsStringToNumber s0.amount).isNaN then s0
  else
    let issued :=
      { s0 with loading := true, result := JsNumVal.null, rate := JsNumVal.null }
    let afterSecond := convertSuccessContinuation s0 freshId2 resp2 issued
    convertSuccessContinuation s0 freshId1 resp1 afterSecond

/-- A sequence of non-overlapping successful conversions run to
completion one after the other, each given its fresh id and response. -/
def runSuccessfulConversions (s : AppState) (reqs : List (String × ConvertResponse)) :
    AppState :=
  reqs.foldl (fun st p => (onConvert st p.1 (FetchOutcome.success p.2)).1) s

/-- Concrete state of the spec's example scenario: catalog USD and PKR,
amount text 10, converting USD to PKR, empty history. -/
def sampleState : AppState :=
  { currencies := [("PKR", "Pakistani Rupee"), ("USD", "US Dollar")],
    from_ := "USD", to_ := "PKR", amount := "10",
    result := JsNumVal.null, rate := JsNumVal.null,
    loading := false, loadingCurrencies := false, history := [] }

/-- Concrete response of the spec's example scenario. -/
def sampleResp : ConvertResponse := { result := 2790, rate := 279, fetchedAt := "T1" }

/-- Concrete response of the earlier-issued request in the race scenario. -/
def respEarlier : ConvertResponse := { result := 100, rate := 10, fetchedAt := "T1" }

/-- Concrete response of the later-issued request in the race scenario. -/
def respLater : ConvertResponse := { result := 200, rate := 20, fetchedAt := "T2" }

/-- A state whose amount text is the Infinity literal. -/
def infinityState : AppState := { sampleState with amount := "Infinity" }

/-- A state whose amount text is not numeric. -/
def nanState : AppState := { sampleState with amount := "abc" }

/-- A concrete history entry. -/
def sampleEntry : HistoryEntry :=
  { id := "id0", from_ := "USD", to_ := "PKR", amount := JSNum.finite 10,
    result := JsNumVal.num 2790, rate := JsNumVal.num 279, at_ := some "T1" }

/-- Fifty-one fresh-id and response pairs for a run of 51 conversions. -/
def sampleReqs : List (String × ConvertResponse) :=
  (List.range 51).map (fun i => ("r", { result := (i : ℚ), rate := 1, fetchedAt := "T" }))

/-- Fifty-one history entries, a persisted sequence longer than the cap. -/
def entries51 : List HistoryEntry :=
  (List.range 51).map (fun _ => sampleEntry)

theorem take_append_take {α : Type} (a b : List α) (n : Nat) :
    (a ++ b.take n).take n = (a ++ b).take n := by
  rw [List.take_append_eq_append_take, List.take_append_eq_append_take, List.take_take]
  have hmin : (n - a.length) ⊓ n = n - a.length := by omega
  rw [hmin]

theorem appendAll_eq_take (es : List HistoryEntry) :
    ∀ h : List HistoryEntry, h.length ≤ 50 →
      appendAll h es = (es.reverse ++ h).take 50 := by
  induction es with
  | nil =>
    intro h hh
    simp only [appendAll, List.foldl_nil, List.reverse_nil, List.nil_append]
    exact (List.take_of_length_le hh).symm
  | cons e es ih =>
    intro h hh
    have hlen : (appendEntry h e).length ≤ 50 := by
      simp only [appendEntry, List.length_take]
      omega
    calc appendAll h (e :: es) = appendAll (appendEntry h e) es := rfl
      _ = (es.reverse ++ appendEntry h e).take 50 := ih _ hlen
      _ = (es.reverse ++ (e :: h)).take 50 := by
          simpa [appendEntry] using take_append_take es.reverse (e :: h) 50
      _ = ((e :: es).reverse ++ h).take 50 := by
          simp [List.reverse_cons, List.append_assoc]

theorem appendAll_gt50 (h es : List HistoryEntry) (hN : 50 < es.length) :
    appendAll h es = es.reverse.take 50 := by
  cases es with
  | nil => simp at hN
  | cons e es =>
    have hN' : 50 ≤ es.length := by
      simp only [List.length_cons] at hN
      omega
    have h50 : 50 ≤ es.reverse.length := by
      simpa [List.length_reverse] using hN'
    calc appendAll h (e :: es) = appendAll (appendEntry h e) es := rfl
      _ = (es.reverse ++ appendEntry h e).take 50 := by
          apply appendAll_eq_take
          simp only [appendEntry, List.length_take]
          omega
      _ = es.reverse.take 50 := List.take_append_of_le_length h50
      _ = ((e :: es).reverse).take 50 := by
          rw [List.reverse_cons, List.take_append_of_le_length h50]

theorem amount_guard_false {s : AppState} (h1 : ¬ s.amount = "")
    (h2 : (jsStringToNumber s.amount).isNaN = false) :
    (s.amount == "" || (jsStringToNumber s.amount).isNaN) = false := by
  simp [h1, h2]

theorem onConvert_success_eq (s : AppState) (fid : String) (resp : ConvertResponse)
    (h1 : ¬ s.amount = "") (h2 : (jsStringToNumber s.amount).isNaN = false) :
    (onConvert s fid (FetchOutcome.success resp)).1 =
      { s with result := JsNumVal.num resp.result, rate := JsNumVal.num resp.rate,
               history := appendEntry s.history (recordOf s (fid, resp)),
               loading := false } := by
  unfold onConvert FetchOutcome.success
  rw [amount_guard_false h1 h2]
  rfl

theorem runConversions_history (reqs : List (String × ConvertResponse)) :
    ∀ s : AppState, ¬ s.amount = "" → (jsStringToNumber s.amount).isNaN = false →
      (runSuccessfulConversions s reqs).history
        = appendAll s.history (reqs.map (recordOf s)) := by
  induction reqs with
  | nil => intro s _ _; rfl
  | cons p reqs ih =>
    intro s h1 h2
    have hstep : (onConvert s p.1 (FetchOutcome.success p.2)).1 =
        { s with result := JsNumVal.num p.2.result, rate := JsNumVal.num p.2.rate,
                 history := appendEntry s.history (recordOf s (p.1, p.2)),
                 loading := false } := onConvert_success_eq s p.1 p.2 h1 h2
    calc (runSuccessfulConversions s (p :: reqs)).history
        = (runSuccessfulConversions (onConvert s p.1 (FetchOutcome.success p.2)).1 reqs).history := rfl
      _ = appendAll ((onConvert s p.1 (FetchOutcome.success p.2)).1).history
            (reqs.map (recordOf ((onConvert s p.1 (FetchOutcome.success p.2)).1))) :=
          ih _ (by rw [hstep]; exact h1) (by rw [hstep]; exact h2)
      _ = appendAll (appendEntry s.history (recordOf s (p.1, p.2)))
            (reqs.map (recordOf s)) := by
          rw [hstep]
          rfl
      _ = appendAll s.history ((p :: reqs).map (recordOf s)) := rfl

/-- C1: for every successful conversion (one that passes the amount guard),
a HistoryEntry whose from, to, amount, result and rate fields exactly match
the issued request and the service response, with the fresh id and the
response's fetchedAt as its timestamp, is prepended at position 0 of the
history log, and the log's length after the append equals
min (previous length + 1) 50. -/
theorem convert_success_appends_matching_entry (s : AppState) (fid : String)
    (resp : ConvertResponse) (h1 : ¬ s.amount = "")
    (h2 : (jsStringToNumber s.amount).isNaN = false) :
    (onConvert s fid (FetchOutcome.success resp)).1.history
        = ({ id := fid, from_ := s.from_, to_ := s.to_,
             amount := jsStringToNumber s.amount, result := JsNumVal.num resp.result,
             rate := JsNumVal.num resp.rate, at_ := some resp.fetchedAt }
            :: s.history).take 50 ∧
    (onConvert s fid (FetchOutcome.success resp)).1.history.head?
        = some { id := fid, from_ := s.from_, to_ := s.to_,
                 amount := jsStringToNumber s.amount, result := JsNumVal.num resp.result,
                 rate := JsNumVal.num resp.rate, at_ := some resp.fetchedAt } ∧
    (onConvert s fid (FetchOutcome.success resp)).1.history.length
        = min (s.history.length + 1) 50 := by
  rw [onConvert_success_eq s fid resp h1 h2]
  refine ⟨rfl, rfl, ?_⟩
  simp only [appendEntry, List.length_take, List.length_cons]
  omega

/-- Witness for C1, the spec's example scenario: amount 10 from USD to PKR
with response result 2790, rate 279, fetchedAt T1. -/
theorem convert_success_appends_matching_entry_witness :
    (onConvert sampleState "id1" (FetchOutcome.success sampleResp)).1.history
        = ({ id := "id1", from_ := sampleState.from_, to_ := sampleState.to_,
             amount := jsStringToNumber sampleState.amount,
             result := JsNumVal.num sampleResp.result,
             rate := JsNumVal.num sampleResp.rate,
             at_ := some sampleResp.fetchedAt } :: sampleState.history).take 50 ∧
    (onConvert sampleState "id1" (FetchOutcome.success sampleResp)).1.history.head?
        = some { id := "id1", from_ := sampleState.from_, to_ := sampleState.to_,
                 amount := jsStringToNumber sampleState.amount,
                 result := JsNumVal.num sampleResp.result,
                 rate := JsNumVal.num sampleResp.rate,
                 at_ := some sampleResp.fetchedAt } ∧
    (onConvert sampleState "id1" (FetchOutcome.success sampleResp)).1.history.length
        = min (sampleState.history.length + 1) 50 :=
  convert_success_appends_matching_entry sampleState "id1" sampleResp
    (by decide) (by decide)

/-- C2: for every sequence of more than 50 successful conversions starting
from any history log, the final log contains exactly the 50 most recently
appended entries, newest first. -/
theorem conversions_over_cap_keep_latest50 (s : AppState)
    (reqs : List (String × ConvertResponse))
    (h1 : ¬ s.amount = "") (h2 : (jsStringToNumber s.amount).isNaN = false)
    (hN : 50 < reqs.length) :
    (runSuccessfulConversions s reqs).history
      = ((reqs.map (recordOf s)).reverse).take 50 := by
  rw [runConversions_history reqs s h1 h2]
  exact appendAll_gt50 _ _ (by simpa using hN)

/-- Witness for C2: 51 successful conversions from the example state. -/
theorem conversions_over_cap_keep_latest50_witness :
    (runSuccessfulConversions sampleState sampleReqs).history
      = ((sampleReqs.map (recordOf sampleState)).reverse).take 50 :=
  conversions_over_cap_keep_latest50 sampleState sampleReqs
    (by decide) (by decide) (by decide)

/-- C3 counterexample: the claim that the log length is at most 50 at all
observable times across every operation including the initial load is
false, because the useLocalStorage initializer returns the parsed
persisted sequence without truncation: a persisted slot parsing to 51
entries is loaded as a log of length 51. -/
theorem load_no_truncation_cex :
    50 < (useLocalStorageInit (some (some entries51)) ([] : List HistoryEntry)).length := by
  decide

/-- C3 amended: append and clear always leave the log with length at most
50, and the startup load preserves the bound whenever the persisted
sequence itself has length at most 50 (in particular for any state written
by the app's own append or clear); the load performs no truncation of a
longer persisted sequence. -/
theorem history_bound_amended (h : List HistoryEntry) (e : HistoryEntry)
    (v : List HistoryEntry) (hv : v.length ≤ 50) :
    (appendEntry h e).length ≤ 50 ∧ clearHistory.length ≤ 50 ∧
    (useLocalStorageInit (some (some v)) ([] : List HistoryEntry)).length ≤ 50 := by
  refine ⟨?_, by simp [clearHistory], by simpa [useLocalStorageInit] using hv⟩
  simp only [appendEntry, List.length_take]
  omega

/-- Witness for the amended C3 at concrete inputs. -/
theorem history_bound_amended_witness :
    (appendEntry [] sampleEntry).length ≤ 50 ∧ clearHistory.length ≤ 50 ∧
    (useLocalStorageInit (some (some [sampleEntry])) ([] : List HistoryEntry)).length ≤ 50 :=
  history_bound_amended [] sampleEntry [sampleEntry] (by decide)

/-- C4 counterexample: with two overlapping submissions where the
later-issued request (fresh id b, respLater) completes before the
earlier-issued one (fresh id a, respEarlier), the final displayed result
is the earlier-issued request's result, not the later-issued one's, and
the final history holds only the earlier-issued request's entry: the code
has no request token and resolves races by completion order, so the claim
that only the most recently issued request's response may update result,
rate and history is false. -/
theorem stale_response_overwrites_cex :
    (overlappingConvertsFinal sampleState "a" "b" respEarlier respLater).result
        = JsNumVal.num respEarlier.result ∧
    ¬ (overlappingConvertsFinal sampleState "a" "b" respEarlier respLater).result
        = JsNumVal.num respLater.result ∧
    (overlappingConvertsFinal sampleState "a" "b" respEarlier respLater).history.map
        HistoryEntry.id = ["a"] := by
  decide

/-- C4 amended: overlapping convert submissions are resolved in completion
order. When the earlier-issued request completes last, its response
determines the final result and rate, and its entry is prepended to the
history captured at issue time, so the later-issued request's entry is
lost (last-completed-wins, not last-issued-wins). -/
theorem overlapping_converts_last_completed (s0 : AppState) (fid1 fid2 : String)
    (r1 r2 : ConvertResponse) (h1 : ¬ s0.amount = "")
    (h2 : (jsStringToNumber s0.amount).isNaN = false) :
    (overlappingConvertsFinal s0 fid1 fid2 r1 r2).result = JsNumVal.num r1.result ∧
    (overlappingConvertsFinal s0 fid1 fid2 r1 r2).rate = JsNumVal.num r1.rate ∧
    (overlappingConvertsFinal s0 fid1 fid2 r1 r2).history
        = appendEntry s0.history (recordOf s0 (fid1, r1)) ∧
    (overlappingConvertsFinal s0 fid1 fid2 r1 r2).loading = false := by
  unfold overlappingConvertsFinal
  rw [amount_guard_false h1 h2]
  exact ⟨rfl, rfl, rfl, rfl⟩

/-- Witness for the amended C4 at the concrete race scenario. -/
theorem overlapping_converts_last_completed_witness :
    (overlappingConvertsFinal sampleState "a" "b" respEarlier respLater).rate
        = JsNumVal.num respEarlier.rate ∧
    (overlappingConvertsFinal sampleState "a" "b" respEarlier respLater).history
        = appendEntry sampleState.history (recordOf sampleState ("a", respEarlier)) ∧
    (overlappingConvertsFinal sampleState "a" "b" respEarlier respLater).loading
        = false :=
  (overlapping_converts_last_completed sampleState "a" "b" respEarlier respLater
    (by decide) (by decide)).2

/-- C5 counterexample: the amount text Infinity is nonempty and does not
parse to a finite number, yet the convert operation is not a no-op: the
guard only rejects NaN, so a request is issued and, on success, the
history log is mutated. -/
theorem infinity_amount_issues_request_cex :
    ¬ infinityState.amount = "" ∧
    (jsStringToNumber infinityState.amount).isFinite = false ∧
    (onConvert infinityState "x" (FetchOutcome.success respEarlier)).2.requested = true ∧
    ¬ (onConvert infinityState "x" (FetchOutcome.success respEarlier)).1.history
        = infinityState.history := by
  decide

/-- C5 amended: for every amount text that is empty or whose Number
conversion is NaN, the convert operation is a no-op: no request is issued,
no alert or error log happens, and the state (loading, result, rate,
history) is returned unchanged. Amount texts converting to the non-finite,
non-NaN values Infinity and -Infinity pass the guard and issue a request. -/
theorem convert_noop_on_empty_or_nan (s : AppState) (fid : String) (o : FetchOutcome)
    (h : s.amount = "" ∨ (jsStringToNumber s.amount).isNaN = true) :
    onConvert s fid o = (s, noEffects) := by
  have hg : (s.amount == "" || (jsStringToNumber s.amount).isNaN) = true := by
    rcases h with h | h
    · simp [h]
    · simp [h]
  unfold onConvert
  rw [hg]
  rfl

/-- Witness for the amended C5: a non-numeric amount text. -/
theorem convert_noop_on_empty_or_nan_witness :
    onConvert nanState "x" FetchOutcome.failure = (nanState, noEffects) :=
  convert_noop_on_empty_or_nan nanState "x" FetchOutcome.failure (Or.inr (by decide))

/-- C6 fails on the code at a malformed payload: for a 2xx convert
response whose body parses to the empty object, resp.data destructures at
App.jsx line 68 to undefined result, rate and fetchedAt without throwing,
and the code takes the success path. Contrary to the claim, result and
rate are set to undefined rather than left cleared as null, an entry with
undefined fields is appended to the history log, no alert is shown and
nothing is logged; only the loading flag ends false as the claim says.
The claim matches the spec's stated intent (malformed payloads treated
identically to failures, no partial result ever set), so the code, which
never validates the payload, is the bug. -/
theorem malformed_payload_takes_success_path :
    (onConvert sampleState "x"
        (FetchOutcome.resolved (ConvertPayload.obj none none none))).1.result
        = JsNumVal.undef ∧
    (onConvert sampleState "x"
        (FetchOutcome.resolved (ConvertPayload.obj none none none))).1.rate
        = JsNumVal.undef ∧
    (onConvert sampleState "x"
        (FetchOutcome.resolved (ConvertPayload.obj none none none))).1.history
        = [{ id := "x", from_ := "USD", to_ := "PKR",
             amount := jsStringToNumber "10", result := JsNumVal.undef,
             rate := JsNumVal.undef, at_ := none }] ∧
    (onConvert sampleState "x"
        (FetchOutcome.resolved (ConvertPayload.obj none none none))).2
        = { requested := true, alerted := false, loggedError := false } ∧
    (onConvert sampleState "x"
        (FetchOutcome.resolved (ConvertPayload.obj none none none))).1.loading
        = false := by
  decide

/-- C7: for every state, swap exchanges from and to, clears the displayed
result and rate, and leaves the amount text and the history log (and the
rest of the state) unchanged. -/
theorem swap_exchanges_and_clears (s : AppState) :
    (onSwap s).from_ = s.to_ ∧ (onSwap s).to_ = s.from_ ∧
    (onSwap s).result = JsNumVal.null ∧ (onSwap s).rate = JsNumVal.null ∧
    (onSwap s).amount = s.amount ∧ (onSwap s).history = s.history ∧
    (onSwap s).loading = s.loading ∧ (onSwap s).currencies = s.currencies :=
  ⟨rfl, rfl, rfl, rfl, rfl, rfl, rfl, rfl⟩

/-- C8: for every catalog-fetch outcome, success or failure, arriving after
the owning view has been torn down (cancelled true), the state is not
mutated: the cancellation flag suppresses both the catalog write and the
clearing of loadingCurrencies. -/
theorem catalog_teardown_no_state_write (o : CatalogOutcome) (s : AppState) :
    (fetchCurrenciesSettle true o s).1 = s := by
  cases o <;> rfl

/-- C9: the startup load returns the persisted sequence when present and
parseable; when the slot is absent or the stored text is unparseable it
returns the empty sequence; and the persistence write is total, leaving
the slot unchanged when the underlying write fails (the failure is
swallowed) and storing the value when it succeeds. -/
theorem history_load_write_fallback (v : List HistoryEntry)
    (stored : Option (List HistoryEntry)) (w : List HistoryEntry) :
    useLocalStorageInit (some (some v)) ([] : List HistoryEntry) = v ∧
    useLocalStorageInit (none : Option (Option (List HistoryEntry))) [] = [] ∧
    useLocalStorageInit (some (none : Option (List HistoryEntry))) [] = [] ∧
    useLocalStorageWrite true stored w = some w ∧
    useLocalStorageWrite false stored w = stored :=
  ⟨rfl, rfl, rfl, rfl, rfl⟩

/-- C10: a successful catalog fetch whose payload lacks the data field sets
the catalog to the empty mapping and is treated as a success: no error is
logged, loadingCurrencies clears, and the resulting state is
indistinguishable from the response whose data field is a genuinely empty
catalog. -/
theorem catalog_missing_data_field_empty_success (s : AppState) :
    fetchCurrenciesSettle false (CatalogOutcome.success none) s
        = fetchCurrenciesSettle false (CatalogOutcome.success (some [])) s ∧
    ((fetchCurrenciesSettle false (CatalogOutcome.success none) s).1).currencies = [] ∧
    ((fetchCurrenciesSettle false (CatalogOutcome.success none) s).1).loadingCurrencies
        = false ∧
    (fetchCurrenciesSettle false (CatalogOutcome.success none) s).2 = false :=
  ⟨rfl, rfl, rfl, rfl⟩
